import Mathlib

/-!
Verification of the otter autoscaling control plane against its
natural-language specification.

The repository ships the convergence composition module
(`otter/convergence/composition.py`) together with the test suites for the
controller (`otter/test/test_controller.py`) and the worker
(`otter/test/worker/test_launch_server_v1.py`).  The controller and worker
implementation modules themselves are not part of the source tree, so their
operations are modelled from the specification (each such definition carries a
doc comment starting with `Modelled from the spec:`) and cross-checked against
the concrete expectations recorded in the test suites.
-/

namespace Otter

/-- Runtime state of a scaling group, after `GroupState` in
`otter.models.interface` as used by the tests: active and pending server
collections (only their ids matter here), the group-wide touch timestamp,
per-policy touch timestamps, the paused flag and the desired capacity.
Timestamps are modelled as integers (seconds); a missing timestamp is
`none`. -/
structure GroupState where
  tenant_id : String
  group_id : String
  group_name : String
  active : List String
  pending : List String
  group_touched : Option Int
  policy_touched : List (String × Int)
  paused : Bool
  desired : Int
deriving Repr, DecidableEq

/-- Group configuration: `minEntities`, optional `maxEntities` (absent means
the controller's default maximum applies) and the group cooldown. -/
structure GroupConfig where
  minEntities : Int
  maxEntities : Option Int
  cooldown : Int
deriving Repr, DecidableEq

/-- A scaling policy: at most one of the change specs `change`,
`changePercent`, `desiredCapacity` (the controller checks the keys in that
order), plus the policy cooldown. -/
structure Policy where
  change : Option Int
  changePercent : Option Rat
  desiredCapacity : Option Int
  cooldown : Int
deriving Repr, DecidableEq

/-- `|active| + |pending|`: the current capacity of the group. -/
def GroupState.capacity (s : GroupState) : Int :=
  (s.active.length : Int) + (s.pending.length : Int)

/-- Rounding of a rational to an integer away from zero (Python's
`Decimal.to_integral_value(ROUND_UP)`): ceiling for non-negative values,
floor for negative ones, phrased through the executable `Rat.floor`. -/
def roundAwayFromZero (q : Rat) : Int :=
  if 0 ≤ q then -(Rat.floor (-q)) else Rat.floor q

/-- The percentage contribution of a `changePercent` policy with percentage
`p` applied to a current capacity `current`. -/
def percentDelta (p : Rat) (current : Int) : Int :=
  roundAwayFromZero (p * (current : Rat) / 100)

/-- Modelled from the spec: the change-spec resolution step of
`otter.controller.calculate_delta` — the raw target before clamping
(`change`, then `changePercent`, then `desiredCapacity`; none of them is an
`AttributeError`, modelled as `none`). -/
def rawTarget (state : GroupState) (policy : Policy) : Option Int :=
  let current := state.capacity
  match policy.change with
  | some d => some (current + d)
  | none =>
    match policy.changePercent with
    | some p => some (current + percentDelta p current)
    | none =>
      match policy.desiredCapacity with
      | some t => some t
      | none => none

/-- Modelled from the spec: `otter.controller.calculate_delta` (the
controller module is not in the source tree; `CalculateDeltaTestCase` pins
the behaviour).  Resolve the raw target from the change spec, clamp it into
`[minEntities, maxEntities-or-default]`, store the clamped value as the
state's desired capacity and return the delta against the current capacity.
The module-level default maximum (`MAX_ENTITIES`, patched to 10 in the
tests) is passed explicitly as `maxDefault`. -/
def calculate_delta (maxDefault : Int) (state : GroupState) (config : GroupConfig)
    (policy : Policy) : Option (Int × GroupState) :=
  match rawTarget state policy with
  | none => none
  | some raw =>
    let maxEnt := config.maxEntities.getD maxDefault
    let constrained := max (min raw maxEnt) config.minEntities
    some (constrained - state.capacity, { state with desired := constrained })

/-- A group state with five servers (as in
`CalculateDeltaTestCase.test_percent_rounding`: five pending, none active)
and no touch timestamps. -/
def fiveServerState : GroupState :=
  { tenant_id := "1", group_id := "1", group_name := "test"
    active := [], pending := ["0", "1", "2", "3", "4"]
    group_touched := none, policy_touched := [], paused := false, desired := 0 }

/-- The configuration used throughout `CalculateDeltaTestCase`:
min 0, max 10. -/
def testConfig : GroupConfig :=
  { minEntities := 0, maxEntities := some 10, cooldown := 0 }

/-- A `changePercent` policy with percentage `p` and no cooldown. -/
def percentPolicy (p : Rat) : Policy :=
  { change := none, changePercent := some p, desiredCapacity := none, cooldown := 0 }

/-- The empty group state of `test_zero_change_below_min`. -/
def emptyGroupState : GroupState :=
  { fiveServerState with pending := [] }

/-- The `[5, 10]` window configuration of `test_zero_change_below_min`. -/
def minFiveConfig : GroupConfig :=
  { minEntities := 5, maxEntities := some 10, cooldown := 0 }

/-- The `change = 0` policy of `test_zero_change_below_min`. -/
def zeroChangePolicy : Policy :=
  { change := some 0, changePercent := none, desiredCapacity := none, cooldown := 0 }

/-- Lookup in an association list keyed by strings (Python `dict.get`). -/
def assocLookup {α : Type} (l : List (String × α)) (k : String) : Option α :=
  (l.find? (fun kv => kv.1 == k)).map (fun kv => kv.2)

/-- One cooldown entry passes when the touch timestamp is missing (counts as
infinitely long ago) or the elapsed time since it reached the cooldown. -/
def cooldownOk (now : Int) : Option Int × Int → Bool
  | (none, _) => true
  | (some touched, cooldown) => decide (cooldown ≤ now - touched)

/-- Modelled from the spec: `otter.controller.check_cooldowns` (the
controller module is not in the source tree; `CheckCooldownsTestCase` pins
the behaviour).  Walks the two (timestamp, cooldown) pairs — this policy's
touch time against the policy cooldown, and the group touch time against the
group cooldown — and fails if any present timestamp is too recent. -/
def check_cooldowns (now : Int) (state : GroupState) (config : GroupConfig)
    (policy : Policy) (policy_id : String) : Bool :=
  [(assocLookup state.policy_touched policy_id, policy.cooldown),
   (state.group_touched, config.cooldown)].all (cooldownOk now)

/-- Errors surfaced by `maybe_execute_scaling_policy`. -/
inductive ExecError where
  | NoSuchPolicy : ExecError
  | AttributeFailure : ExecError
  | CannotExecutePolicy : String → ExecError
deriving Repr, DecidableEq

/-- Marking a policy as executed: both the group touch timestamp and this
policy's touch timestamp are set to now. -/
def mark_executed (state : GroupState) (policy_id : String) (now : Int) : GroupState :=
  { state with
      group_touched := some now
      policy_touched :=
        (policy_id, now) :: state.policy_touched.filter (fun kv => kv.1 ≠ policy_id) }

/-- Modelled from the spec: `otter.controller.maybe_execute_scaling_policy`
(the controller module is not in the source tree;
`MaybeExecuteScalingPolicyTestCase` pins the behaviour).  Load the policy
(absent means `NoSuchPolicy`); fail `CannotExecutePolicy "cooldowns not
met"` when the cooldown gate is closed; compute the delta and fail
`CannotExecutePolicy "no change in servers"` when it is zero; otherwise the
scaling execution proceeds and the state is marked as executed.  An error
result carries no state: the group state reaches the store unchanged and
the policy is not marked as executed. -/
def maybe_execute_policy (now maxDefault : Int) (policies : List (String × Policy))
    (state : GroupState) (config : GroupConfig) (policy_id : String) :
    Except ExecError GroupState :=
  match assocLookup policies policy_id with
  | none => .error .NoSuchPolicy
  | some policy =>
    if check_cooldowns now state config policy policy_id then
      match calculate_delta maxDefault state config policy with
      | none => .error .AttributeFailure
      | some (delta, newState) =>
        if delta = 0 then .error (.CannotExecutePolicy "no change in servers")
        else .ok (mark_executed newState policy_id now)
    else .error (.CannotExecutePolicy "cooldowns not met")

/-- The compute-service view of a server: its id and metadata, as returned by
`get_server_details`. -/
structure ServerDetails where
  id : String
  metadata : List (String × String)
deriving Repr, DecidableEq

/-- Errors surfaced by `convergence_remove_server_from_group`. -/
inductive RemoveError where
  | ServerNotFound : RemoveError
  | CannotDeleteBelowMin : RemoveError
deriving Repr, DecidableEq

/-- The effect performed on the server by a successful removal: either the
DRAINING metadata item is set on it, or it is evicted (its group metadata is
stripped, releasing it to the tenant). -/
inductive RemoveEffect where
  | SetDrainingMetadata : String → RemoveEffect
  | Evict : String → RemoveEffect
deriving Repr, DecidableEq

/-- Does the server's metadata mark it as belonging to the group?  The group
id must appear under the autoscaling group-id metadata key. -/
def serverInGroup (group_id : String) (server : ServerDetails) : Bool :=
  assocLookup server.metadata "rax:auto_scaling_group_id" == some group_id

/-- Modelled from the spec:
`otter.controller.convergence_remove_server_from_group` (the controller
module is not in the source tree; `ConvergenceRemoveServerTests` pins the
behaviour).  The compute service is modelled as the list of its servers.
Preconditions: the server must exist and carry this group's id in its
metadata, else `ServerNotFound`; with `replace = false`, additionally the
current capacity must exceed `minEntities`, else `CannotDeleteBelowMin`
(`ServerNotFound` takes precedence when both fail).  On success the effect
is `SetDrainingMetadata` when `purge` and `Evict` otherwise, and the desired
capacity is decremented exactly when `replace = false`. -/
def convergence_remove_server (novaServers : List ServerDetails) (minEntities : Int)
    (state : GroupState) (server_id : String) (replace purge : Bool) :
    Except RemoveError (GroupState × RemoveEffect) :=
  let effect : RemoveEffect :=
    if purge then .SetDrainingMetadata server_id else .Evict server_id
  match novaServers.find? (fun s => s.id == server_id) with
  | none => .error .ServerNotFound
  | some server =>
    if serverInGroup state.group_id server then
      if replace then .ok (state, effect)
      else if minEntities < state.capacity then
        .ok ({ state with desired := state.desired - 1 }, effect)
      else .error .CannotDeleteBelowMin
    else .error .ServerNotFound

/-- The group state of `ConvergenceRemoveServerTests`: one active server
`s0` in group `group_id`, desired capacity 2. -/
def removalGroupState : GroupState :=
  { tenant_id := "tenant_id", group_id := "group_id", group_name := "group_name"
    active := ["s0"], pending := []
    group_touched := none, policy_touched := [], paused := false, desired := 2 }

/-- A compute-service server carrying this group's id in its metadata. -/
def memberServer : ServerDetails :=
  { id := "server_id", metadata := [("rax:auto_scaling_group_id", "group_id")] }

/-- A compute-service server carrying a different group's id. -/
def wrongGroupServer : ServerDetails :=
  { id := "server_id", metadata := [("rax:auto_scaling_group_id", "other_group_id")] }

/-- A server as the worker's launch config describes it and as the compute
listing returns it: the listing is already filtered by image, flavor and
exact name, so only the metadata is left to compare. -/
structure NovaServer where
  name : String
  imageRef : String
  flavorRef : String
  metadata : List (String × String)
deriving Repr, DecidableEq

/-- Outcome of `find_server`: a single matching server, nothing, or the
ambiguous / mismatched cases that raise `ServerCreationRetryError`. -/
inductive FindResult where
  | found : NovaServer → FindResult
  | missing : FindResult
  | creationRetry : FindResult
deriving Repr, DecidableEq

/-- Modelled from the spec: `otter.worker.launch_server_v1.find_server` (the
worker module is not in the source tree; `ServerTests` pins the behaviour).
The compute list API is queried filtered by image, flavor and exact-name
regex; `listing` is its response.  An empty listing finds nothing; more than
one candidate is unsafe to adopt and fails `ServerCreationRetryError`, as
does a single candidate whose metadata does not match the launch config. -/
def find_server (server_config : NovaServer) (listing : List NovaServer) : FindResult :=
  match listing with
  | [] => .missing
  | [server] =>
    if server.metadata == server_config.metadata then .found server else .creationRetry
  | _ :: _ :: _ => .creationRetry

/-- Outcome of one CreateServer API attempt: a created server, or a failure
with an HTTP status code. -/
inductive CreateOutcome where
  | created : NovaServer → CreateOutcome
  | failed : Nat → CreateOutcome
deriving Repr, DecidableEq

/-- Errors surfaced by `create_server`. -/
inductive CreateError where
  | ServerCreationRetry : CreateError
  | OriginalError : Nat → CreateError
deriving Repr, DecidableEq

/-- A CreateServer failure is retryable when it is a 5xx or a 429 (the spec's
retry classification for CreateServer; other 4xx are terminal). -/
def createRetryable (code : Nat) : Bool :=
  500 ≤ code || code == 429

/-- Modelled from the spec: the retry loop of
`otter.worker.launch_server_v1.create_server` (the worker module is not in
the source tree; `ServerTests` pins the behaviour).  `attempts i` is the
outcome of the i-th CreateServer API call and `listings i` the compute list
response `find_server` would see after it.  On a retryable failure the
executor consults `find_server`: an adopted server ends the loop
successfully, an ambiguous result fails `ServerCreationRetry`, and finding
nothing retries the create while retries remain, after which the original
error is surfaced.  The result carries the number of create attempts
made. -/
def create_server_go (attempts : Nat → CreateOutcome) (listings : Nat → List NovaServer)
    (server_config : NovaServer) : Nat → Nat → Except CreateError NovaServer × Nat
  | i, retriesLeft =>
    match attempts i with
    | .created server => (.ok server, i + 1)
    | .failed code =>
      if createRetryable code then
        match find_server server_config (listings i) with
        | .found server => (.ok server, i + 1)
        | .creationRetry => (.error .ServerCreationRetry, i + 1)
        | .missing =>
          match retriesLeft with
          | 0 => (.error (.OriginalError code), i + 1)
          | r + 1 => create_server_go attempts listings server_config (i + 1) r
      else (.error (.OriginalError code), i + 1)

/-- `create_server` with its default create retry budget of 3. -/
def create_server (attempts : Nat → CreateOutcome) (listings : Nat → List NovaServer)
    (server_config : NovaServer) : Except CreateError NovaServer × Nat :=
  create_server_go attempts listings server_config 0 3

/-- A launch template used to instantiate `create_server` concretely. -/
def launchTemplate : NovaServer :=
  { name := "abcd", imageRef := "123", flavorRef := "xyz"
    metadata := [("rax:auto_scaling_group_id", "group_id")] }

/-- The load-balancer 422 message bodies the remove path distinguishes. -/
inductive LBMessage where
  | lbDeleted : LBMessage
  | pendingDelete : LBMessage
  | pendingUpdate : LBMessage
  | otherMessage : LBMessage
deriving Repr, DecidableEq

/-- One response of the load balancer API to a remove-node DELETE call. -/
structure LBResponse where
  code : Nat
  message : LBMessage
deriving Repr, DecidableEq

/-- A remove-node response that counts as success: any 2xx, a 404, or a 422
whose message says the load balancer is deleted or in PENDING_DELETE (the
already-gone cases, logged as such). -/
def removeNodeSuccess (r : LBResponse) : Bool :=
  (200 ≤ r.code && r.code < 300) || r.code == 404 ||
    (r.code == 422 && (r.message == .lbDeleted || r.message == .pendingDelete))

/-- Modelled from the spec: the retry loop of
`otter.worker.launch_server_v1.remove_from_load_balancer` (the worker module
is not in the source tree; `RemoveNodeTests` pins the behaviour).
`responses i` is the response to the i-th DELETE call.  A success-class
response ends the loop; every other response is retried while the budget
lasts (unexpected statuses are logged but still counted against the
budget, per the spec's retry discipline and
`test_removelb_retries_logs_unexpected_errors`), and once the budget is
exhausted the failing status code is surfaced. -/
def remove_from_lb_go (responses : Nat → LBResponse) : Nat → Nat → Except Nat Unit
  | i, retriesLeft =>
    if removeNodeSuccess (responses i) then .ok ()
    else
      match retriesLeft with
      | 0 => .error (responses i).code
      | r + 1 => remove_from_lb_go responses (i + 1) r

/-- `remove_from_load_balancer` with an explicit retry budget
(`lb_max_retries`, default 12). -/
def remove_from_load_balancer (responses : Nat → LBResponse) (max_retries : Nat) :
    Except Nat Unit :=
  remove_from_lb_go responses 0 max_retries

/-- The response sequence of `test_removelb_retries_logs_unexpected_errors`:
500, 503, two 422 PENDING_UPDATE, a 401, then 200. -/
def unexpectedCodesResponses : Nat → LBResponse
  | 0 => { code := 500, message := .otherMessage }
  | 1 => { code := 503, message := .otherMessage }
  | 2 => { code := 422, message := .pendingUpdate }
  | 3 => { code := 422, message := .pendingUpdate }
  | 4 => { code := 401, message := .otherMessage }
  | _ => { code := 200, message := .otherMessage }

/-- The `server` part of a launch config (`launch_config['args']['server']`
in `otter/convergence/composition.py`): its metadata mapping plus the other,
opaque payload fields. -/
structure LaunchServer where
  metadata : List (String × String)
  otherFields : List (String × String)
deriving Repr, DecidableEq

/-- The frozen `{'server': ...}` snapshot that
`prepare_server_launch_config` receives. -/
structure ServerLaunchConfig where
  server : LaunchServer
deriving Repr, DecidableEq

/-- One load balancer entry of `launch_config['args']['loadBalancers']`. -/
structure LBJsonConfig where
  loadBalancerId : Nat
  port : Nat
  lbKind : Option String
deriving Repr, DecidableEq

/-- The `args` part of a group's launch config. -/
structure LaunchConfigArgs where
  server : LaunchServer
  loadBalancers : List LBJsonConfig
deriving Repr, DecidableEq

/-- A group's launch config as `get_desired_group_state` consumes it. -/
structure LaunchConfig where
  args : LaunchConfigArgs
deriving Repr, DecidableEq

/-- `CLBDescription` from `otter.convergence.model` as `json_to_LBConfigs`
builds it: the stringified load balancer id and the port. -/
structure CLBDescription where
  lb_id : String
  port : Nat
deriving Repr, DecidableEq

/-- `DesiredGroupState` from `otter.convergence.model`: the prepared launch
config snapshot, the desired capacity, and the lb-id → descriptions map. -/
structure DesiredGroupState where
  launch_config : ServerLaunchConfig
  desired : Nat
  desired_lbs : List (Nat × List CLBDescription)
deriving Repr, DecidableEq

/-- Setting a key in a string-keyed mapping (pyrsistent `set_in` on the
metadata level): the new binding replaces any previous one. -/
def metaSet (m : List (String × String)) (k v : String) : List (String × String) :=
  (k, v) :: m.filter (fun kv => kv.1 ≠ k)

/-- `prepare_server_launch_config` from
`otter/convergence/composition.py`: set the group id under the
`rax:auto_scaling_group_id` key of the server's metadata. -/
def prepare_server_launch_config (group_id : String)
    (launch_config : ServerLaunchConfig) : ServerLaunchConfig :=
  { launch_config with
      server := { launch_config.server with
        metadata := metaSet launch_config.server.metadata
          "rax:auto_scaling_group_id" group_id } }

/-- Appending to the list held under a key of a `defaultdict(list)`. -/
def lbdAppend (m : List (Nat × List CLBDescription)) (i : Nat) (d : CLBDescription) :
    List (Nat × List CLBDescription) :=
  match m with
  | [] => [(i, [d])]
  | (j, ds) :: rest =>
    if j = i then (j, ds ++ [d]) :: rest else (j, ds) :: lbdAppend rest i d

/-- `json_to_LBConfigs` from `otter/convergence/composition.py`: every
non-RackConnectV3 entry contributes a `CLBDescription` with the stringified
lb id and the port, grouped per lb id. -/
def json_to_LBConfigs (lbs_json : List LBJsonConfig) : List (Nat × List CLBDescription) :=
  lbs_json.foldl
    (fun m lb =>
      if lb.lbKind = some "RackConnectV3" then m
      else lbdAppend m lb.loadBalancerId
        { lb_id := toString lb.loadBalancerId, port := lb.port })
    []

/-- `get_desired_group_state` from `otter/convergence/composition.py`:
freeze the launch config's server payload, stamp it with the group id, and
pair it with the desired capacity and the load balancer bindings. -/
def get_desired_group_state (group_id : String) (launch_config : LaunchConfig)
    (desired : Nat) : DesiredGroupState :=
  { launch_config :=
      prepare_server_launch_config group_id { server := launch_config.args.server }
    desired := desired
    desired_lbs := json_to_LBConfigs launch_config.args.loadBalancers }

/-- `tenant_is_enabled` from `otter/convergence/composition.py`: look up the
`convergence-tenants` configuration value; when present, the tenant is
enabled iff its id is listed; when absent, no tenant is enabled. -/
def tenant_is_enabled (tenant_id : String)
    (get_config_value : String → Option (List String)) : Bool :=
  match get_config_value "convergence-tenants" with
  | some enabled_tenant_ids => decide (tenant_id ∈ enabled_tenant_ids)
  | none => false

theorem Rat.floor_eq_intFloor (q : Rat) : Rat.floor q = ⌊q⌋ := by
  rw [Rat.floor_def', Rat.floor_def]

/-- `roundAwayFromZero` is the ceiling on non-negative inputs and the floor on
negative ones. -/
theorem roundAwayFromZero_eq (q : Rat) :
    roundAwayFromZero q = if 0 ≤ q then ⌈q⌉ else ⌊q⌋ := by
  unfold roundAwayFromZero
  rw [Rat.floor_eq_intFloor, Rat.floor_eq_intFloor, ← Int.ceil_neg, neg_neg]

/-- The current capacity of a group is never negative. -/
theorem capacity_nonneg (state : GroupState) : 0 ≤ state.capacity :=
  add_nonneg (Int.natCast_nonneg _) (Int.natCast_nonneg _)

/-- For a non-negative capacity, `percentDelta` is `sign(p) * ⌈|p|/100 * c⌉`:
the percentage contribution rounds away from zero. -/
theorem percentDelta_away_from_zero (p : Rat) (c : Int) (hc : 0 ≤ c) :
    percentDelta p c = (if 0 ≤ p then 1 else -1) * ⌈|p| / 100 * (c : Rat)⌉ := by
  have hc0 : (0 : Rat) ≤ (c : Rat) := by exact_mod_cast hc
  unfold percentDelta
  rw [roundAwayFromZero_eq]
  rcases hc0.eq_or_lt with h0 | hpos
  · rw [← h0]
    simp
  · rcases le_or_lt 0 p with hp | hp
    · have hq : 0 ≤ p * (c : Rat) / 100 := by positivity
      rw [if_pos hq, if_pos hp, abs_of_nonneg hp, one_mul]
      congr 1
      ring
    · have hq : p * (c : Rat) / 100 < 0 :=
        div_neg_of_neg_of_pos (mul_neg_of_neg_of_pos hp hpos) (by norm_num)
      have habs : |p| / 100 * (c : Rat) = -(p * (c : Rat) / 100) := by
        rw [abs_of_neg hp]
        ring
      rw [if_neg (not_le.mpr hq), if_neg (not_le.mpr hp), habs, Int.ceil_neg,
        neg_one_mul, neg_neg]

/-- Looking a key up right after setting it yields the value just set. -/
theorem assocLookup_metaSet (m : List (String × String)) (k v : String) :
    assocLookup (metaSet m k v) k = some v := by
  simp [assocLookup, metaSet, List.find?]

/-- `remove_from_lb_go` returns success iff some response within the
remaining budget is success-class and all earlier ones are not. -/
theorem remove_from_lb_go_ok_iff (responses : Nat → LBResponse) :
    ∀ (budget start : Nat),
      remove_from_lb_go responses start budget = .ok () ↔
        ∃ k, k ≤ budget ∧ removeNodeSuccess (responses (start + k)) = true ∧
          ∀ j, j < k → removeNodeSuccess (responses (start + j)) = false := by
  intro budget
  induction budget with
  | zero =>
    intro start
    rw [remove_from_lb_go]
    cases h : removeNodeSuccess (responses start) with
    | false =>
      rw [if_neg (by simp [h])]
      constructor
      · intro hcon
        cases hcon
      · rintro ⟨k, hk, hsucc, -⟩
        interval_cases k
        rw [Nat.add_zero, h] at hsucc
        cases hsucc
    | true =>
      rw [if_pos (by simp [h])]
      refine ⟨fun _ => ⟨0, le_rfl, by rw [Nat.add_zero, h], fun j hj => absurd hj (by omega)⟩,
        fun _ => rfl⟩
  | succ n ih =>
    intro start
    rw [remove_from_lb_go]
    cases h : removeNodeSuccess (responses start) with
    | false =>
      rw [if_neg (by simp [h])]
      rw [ih (start + 1)]
      constructor
      · rintro ⟨k, hk, hsucc, hbefore⟩
        refine ⟨k + 1, by omega,
          by rw [show start + (k + 1) = start + 1 + k by omega]; exact hsucc, ?_⟩
        intro j hj
        cases j with
        | zero => rw [Nat.add_zero]; exact h
        | succ m =>
          rw [show start + (m + 1) = start + 1 + m by omega]
          exact hbefore m (by omega)
      · rintro ⟨k, hk, hsucc, hbefore⟩
        cases k with
        | zero =>
          rw [Nat.add_zero, h] at hsucc
          cases hsucc
        | succ m =>
          refine ⟨m, by omega,
            by rw [show start + 1 + m = start + (m + 1) by omega]; exact hsucc, ?_⟩
          intro j hj
          rw [show start + 1 + j = start + (j + 1) by omega]
          exact hbefore (j + 1) (by omega)
    | true =>
      rw [if_pos (by simp [h])]
      refine ⟨fun _ => ⟨0, by omega, by rw [Nat.add_zero, h], fun j hj => absurd hj (by omega)⟩,
        fun _ => rfl⟩

/-- When every response within the budget fails, `remove_from_lb_go`
surfaces the status code of the last attempt. -/
theorem remove_from_lb_go_exhausted (responses : Nat → LBResponse) :
    ∀ (budget start : Nat),
      (∀ k, k ≤ budget → removeNodeSuccess (responses (start + k)) = false) →
      remove_from_lb_go responses start budget = .error (responses (start + budget)).code := by
  intro budget
  induction budget with
  | zero =>
    intro start hall
    have h0 := hall 0 le_rfl
    rw [Nat.add_zero] at h0
    rw [remove_from_lb_go, if_neg (by simp [h0]), Nat.add_zero]
  | succ n ih =>
    intro start hall
    have h0 := hall 0 (by omega)
    rw [Nat.add_zero] at h0
    rw [remove_from_lb_go, if_neg (by simp [h0])]
    have h := ih (start + 1) (fun k hk => by
      rw [show start + 1 + k = start + (k + 1) by omega]
      exact hall (k + 1) (by omega))
    rw [show start + 1 + n = start + (n + 1) by omega] at h
    exact h

/-- Claim C1: whenever the change spec is recognized (the raw target
resolves), `calculate_delta` sets the returned state's desired capacity to
the raw target clamped inclusively into `[minEntities,
maxEntities-or-default]`, and the returned delta added to
`|active| + |pending|` equals that clamped value; hence, for any
configuration whose minimum does not exceed its (defaulted) maximum — every
valid group config — the resulting desired capacity lies within the window.
The raw target of a `change = 0` policy is the current capacity itself, so
a group outside the window is pulled to the nearest bound. -/
theorem calculate_delta_clamps (maxDefault : Int) (state : GroupState)
    (config : GroupConfig) (policy : Policy) (raw delta : Int) (newState : GroupState)
    (hraw : rawTarget state policy = some raw)
    (hcalc : calculate_delta maxDefault state config policy = some (delta, newState)) :
    newState.desired =
      max (min raw (config.maxEntities.getD maxDefault)) config.minEntities ∧
    state.capacity + delta = newState.desired ∧
    (config.minEntities ≤ config.maxEntities.getD maxDefault →
      config.minEntities ≤ newState.desired ∧
        newState.desired ≤ config.maxEntities.getD maxDefault) := by
  simp only [calculate_delta, hraw, Option.some.injEq, Prod.mk.injEq] at hcalc
  obtain ⟨hdelta, hnew⟩ := hcalc
  subst hnew
  refine ⟨rfl, by rw [← hdelta]; ring, fun hminmax => ⟨le_max_right _ _, ?_⟩⟩
  exact max_le (min_le_right _ _) hminmax

/-- Concrete instantiation of `calculate_delta_clamps`, mirroring
`test_zero_change_below_min`: an empty group with a `[5, 10]` window and a
zero change is pulled up to desired 5 with delta 5, inside the window. -/
theorem calculate_delta_clamps_witness :
    emptyGroupState.capacity + 5 =
      ({ emptyGroupState with desired := 5 } : GroupState).desired ∧
    5 ≤ ({ emptyGroupState with desired := 5 } : GroupState).desired ∧
    ({ emptyGroupState with desired := 5 } : GroupState).desired ≤ 10 := by
  have h := calculate_delta_clamps 10 emptyGroupState minFiveConfig zeroChangePolicy
    0 5 { emptyGroupState with desired := 5 }
    (by with_unfolding_all decide) (by with_unfolding_all decide)
  have hb := h.2.2 (by with_unfolding_all decide)
  exact ⟨h.2.1, hb.1, hb.2⟩

/-- Claim C2: a `changePercent` policy with percentage `p` over a capacity
`n` resolves the raw target to `n + sign(p) * ⌈|p|/100 * n⌉` — the
percentage contribution rounds away from zero — and concretely, with five
servers, +5% gives delta +1, −5% gives −1, +50% gives +3 and −50% gives −3
(the `test_percent_rounding` cases). -/
theorem percent_change_rounds_away_from_zero :
    (∀ (p : Rat) (state : GroupState),
      rawTarget state (percentPolicy p) =
        some (state.capacity +
          (if 0 ≤ p then 1 else -1) * ⌈|p| / 100 * (state.capacity : Rat)⌉)) ∧
    calculate_delta 10 fiveServerState testConfig (percentPolicy 5) =
      some (1, { fiveServerState with desired := 6 }) ∧
    calculate_delta 10 fiveServerState testConfig (percentPolicy (-5)) =
      some (-1, { fiveServerState with desired := 4 }) ∧
    calculate_delta 10 fiveServerState testConfig (percentPolicy 50) =
      some (3, { fiveServerState with desired := 8 }) ∧
    calculate_delta 10 fiveServerState testConfig (percentPolicy (-50)) =
      some (-3, { fiveServerState with desired := 2 }) := by
  refine ⟨fun p state => ?_, ?_, ?_, ?_, ?_⟩
  · simp [rawTarget, percentPolicy,
      percentDelta_away_from_zero p state.capacity (capacity_nonneg state)]
  all_goals with_unfolding_all decide

/-- Claim C3: `check_cooldowns` returns true iff the time since the group
touch timestamp is at least the group cooldown and the time since this
policy's touch timestamp is at least the policy cooldown, a missing
timestamp (no group touch, or the policy id absent from `policy_touched`)
satisfying its conjunct for any cooldown. -/
theorem check_cooldowns_iff (now : Int) (state : GroupState) (config : GroupConfig)
    (policy : Policy) (policy_id : String) :
    check_cooldowns now state config policy policy_id = true ↔
      ((∀ t, state.group_touched = some t → config.cooldown ≤ now - t) ∧
       (∀ t, assocLookup state.policy_touched policy_id = some t →
          policy.cooldown ≤ now - t)) := by
  rcases hg : state.group_touched with _ | tg <;>
    rcases hp : assocLookup state.policy_touched policy_id with _ | tp <;>
      simp [check_cooldowns, cooldownOk, hg, hp, and_comm]

/-- Claim C4: `maybe_execute_policy` fails with `CannotExecutePolicy
"cooldowns not met"` whenever `check_cooldowns` is false, and with
`CannotExecutePolicy "no change in servers"` whenever cooldowns pass but the
computed delta is zero; both results are errors, so no updated group state
is produced — in particular the policy is not marked as executed — and no
scaling execution is triggered. -/
theorem maybe_execute_policy_failures (now maxDefault : Int)
    (policies : List (String × Policy)) (state : GroupState) (config : GroupConfig)
    (policy_id : String) (policy : Policy)
    (hpol : assocLookup policies policy_id = some policy) :
    (check_cooldowns now state config policy policy_id = false →
      maybe_execute_policy now maxDefault policies state config policy_id =
        .error (.CannotExecutePolicy "cooldowns not met")) ∧
    (∀ newState, check_cooldowns now state config policy policy_id = true →
      calculate_delta maxDefault state config policy = some (0, newState) →
      maybe_execute_policy now maxDefault policies state config policy_id =
        .error (.CannotExecutePolicy "no change in servers")) := by
  constructor
  · intro hcool
    simp [maybe_execute_policy, hpol, hcool]
  · intro newState hcool hdelta
    simp [maybe_execute_policy, hpol, hcool, hdelta]

/-- Concrete instantiation of `maybe_execute_policy_failures`, mirroring
`test_maybe_execute_scaling_policy_cooldown_failure` (group touched one
second ago against a 30-second group cooldown) and
`test_maybe_execute_scaling_policy_zero_delta` (cooldowns pass, five servers
in a [0, 10] window and a zero change). -/
theorem maybe_execute_policy_failures_witness :
    maybe_execute_policy 1 10
      [("pol1", { change := some 1, changePercent := none, desiredCapacity := none,
                  cooldown := 0 })]
      { fiveServerState with group_touched := some 0 }
      { minEntities := 0, maxEntities := some 10, cooldown := 30 } "pol1" =
        .error (.CannotExecutePolicy "cooldowns not met") ∧
    maybe_execute_policy 30 10
      [("pol1", { change := some 0, changePercent := none, desiredCapacity := none,
                  cooldown := 0 })]
      fiveServerState testConfig "pol1" =
        .error (.CannotExecutePolicy "no change in servers") :=
  ⟨(maybe_execute_policy_failures 1 10 _ _ _ "pol1"
      { change := some 1, changePercent := none, desiredCapacity := none, cooldown := 0 }
      (by with_unfolding_all decide)).1 (by with_unfolding_all decide),
   (maybe_execute_policy_failures 30 10 _ _ _ "pol1"
      { change := some 0, changePercent := none, desiredCapacity := none, cooldown := 0 }
      (by with_unfolding_all decide)).2 { fiveServerState with desired := 5 }
      (by with_unfolding_all decide) (by with_unfolding_all decide)⟩

/-- Claim C5: `convergence_remove_server` fails with `ServerNotFound`
whenever the server is missing from the compute service or its group-id
metadata differs from this group's id — for every `replace`/`purge`
combination and any capacity, so `ServerNotFound` takes precedence over the
below-min condition — and, with `replace = false` and a server that passes
the membership check, fails with `CannotDeleteBelowMin` whenever
`|active| + |pending|` does not exceed `minEntities`. -/
theorem convergence_remove_server_preconditions (novaServers : List ServerDetails)
    (minEntities : Int) (state : GroupState) (server_id : String) :
    (∀ replace purge : Bool,
      (novaServers.find? (fun s => s.id == server_id) = none ∨
        ∃ server, novaServers.find? (fun s => s.id == server_id) = some server ∧
          serverInGroup state.group_id server = false) →
      convergence_remove_server novaServers minEntities state server_id replace purge =
        .error .ServerNotFound) ∧
    (∀ purge : Bool, ∀ server,
      novaServers.find? (fun s => s.id == server_id) = some server →
      serverInGroup state.group_id server = true →
      state.capacity ≤ minEntities →
      convergence_remove_server novaServers minEntities state server_id false purge =
        .error .CannotDeleteBelowMin) := by
  constructor
  · rintro replace purge (hnone | ⟨server, hfind, hgrp⟩)
    · simp [convergence_remove_server, hnone]
    · simp [convergence_remove_server, hfind, hgrp]
  · intro purge server hfind hgrp hcap
    simp [convergence_remove_server, hfind, hgrp, not_lt.mpr hcap]

/-- Concrete instantiation of `convergence_remove_server_preconditions`,
mirroring `test_server_not_in_group_cannot_scale_down` (wrong group
metadata while also at the minimum: `ServerNotFound` wins) and
`test_server_in_group_cannot_scale_down` (member server, one server against
`minEntities = 1`). -/
theorem convergence_remove_server_preconditions_witness :
    convergence_remove_server [wrongGroupServer] 1 removalGroupState
      "server_id" false false = .error .ServerNotFound ∧
    convergence_remove_server [memberServer] 1 removalGroupState
      "server_id" false true = .error .CannotDeleteBelowMin :=
  ⟨(convergence_remove_server_preconditions _ 1 _ "server_id").1 false false
      (Or.inr ⟨wrongGroupServer, by with_unfolding_all decide,
        by with_unfolding_all decide⟩),
   (convergence_remove_server_preconditions _ 1 _ "server_id").2 true memberServer
      (by with_unfolding_all decide) (by with_unfolding_all decide)
      (by with_unfolding_all decide)⟩

/-- Claim C6: when `convergence_remove_server` succeeds, `replace = true`
returns the input state unchanged while `replace = false` returns it with
`desired` decremented by exactly one and every other field untouched; the
effect on the server is setting the DRAINING metadata item when
`purge = true` and eviction (stripping the group metadata) when
`purge = false`. -/
theorem convergence_remove_server_success (novaServers : List ServerDetails)
    (minEntities : Int) (state : GroupState) (server_id : String) (server : ServerDetails)
    (hfind : novaServers.find? (fun s => s.id == server_id) = some server)
    (hgrp : serverInGroup state.group_id server = true) :
    (∀ purge : Bool,
      convergence_remove_server novaServers minEntities state server_id true purge =
        .ok (state,
          if purge then .SetDrainingMetadata server_id else .Evict server_id)) ∧
    (minEntities < state.capacity →
      ∀ purge : Bool,
      convergence_remove_server novaServers minEntities state server_id false purge =
        .ok ({ state with desired := state.desired - 1 },
          if purge then .SetDrainingMetadata server_id else .Evict server_id)) := by
  constructor
  · intro purge
    simp [convergence_remove_server, hfind, hgrp]
  · intro hcap purge
    simp [convergence_remove_server, hfind, hgrp, hcap]

/-- Concrete instantiation of `convergence_remove_server_success`, mirroring
`test_checks_pass_replace_true_no_purge_success` (state returned unchanged,
eviction) and `test_checks_pass_replace_false_purge_success` (desired
decremented from 2 to 1, DRAINING metadata). -/
theorem convergence_remove_server_success_witness :
    convergence_remove_server [memberServer] 0 removalGroupState
      "server_id" true false = .ok (removalGroupState, .Evict "server_id") ∧
    convergence_remove_server [memberServer] 0 removalGroupState
      "server_id" false true =
      .ok ({ removalGroupState with desired := 1 }, .SetDrainingMetadata "server_id") :=
  ⟨by
    have h := (convergence_remove_server_success [memberServer] 0 removalGroupState
      "server_id" memberServer (by with_unfolding_all decide)
      (by with_unfolding_all decide)).1 false
    simpa using h,
   by
    have h := (convergence_remove_server_success [memberServer] 0 removalGroupState
      "server_id" memberServer (by with_unfolding_all decide)
      (by with_unfolding_all decide)).2 (by with_unfolding_all decide) true
    simpa using h⟩

/-- Claim C7: when a CreateServer call fails with a retryable error, the
executor consults `find_server` before surfacing the error: a single
listed server whose metadata matches the launch template is adopted as the
create's result with no further create attempt; a single server with
mismatched metadata, or more than one candidate, fails
`ServerCreationRetry`; and when nothing is ever found the create is retried
up to 3 more times before the original error is surfaced (4 attempts in
total). -/
theorem create_server_consults_find_server (attempts : Nat → CreateOutcome)
    (listings : Nat → List NovaServer) (server_config : NovaServer) (code : Nat)
    (hretry : createRetryable code = true) :
    (∀ server, attempts 0 = .failed code → listings 0 = [server] →
      server.metadata = server_config.metadata →
      create_server attempts listings server_config = (.ok server, 1)) ∧
    (∀ server, attempts 0 = .failed code → listings 0 = [server] →
      server.metadata ≠ server_config.metadata →
      create_server attempts listings server_config =
        (.error .ServerCreationRetry, 1)) ∧
    (∀ s1 s2 rest, attempts 0 = .failed code → listings 0 = s1 :: s2 :: rest →
      create_server attempts listings server_config =
        (.error .ServerCreationRetry, 1)) ∧
    ((∀ i, attempts i = .failed code) → (∀ i, listings i = []) →
      create_server attempts listings server_config =
        (.error (.OriginalError code), 4)) := by
  refine ⟨?_, ?_, ?_, ?_⟩
  · intro server h0 hl hm
    simp [create_server, create_server_go, h0, hl, hretry, find_server, hm]
  · intro server h0 hl hm
    simp [create_server, create_server_go, h0, hl, hretry, find_server, hm]
  · intro s1 s2 rest h0 hl
    simp [create_server, create_server_go, h0, hl, hretry, find_server]
  · intro hatt hlist
    simp [create_server, create_server_go, hatt 0, hatt 1, hatt 2, hatt 3,
      hlist 0, hlist 1, hlist 2, hlist 3, hretry, find_server]

/-- Concrete instantiation of `create_server_consults_find_server`: with
every create attempt failing with a 500 and the compute listing always
empty, the create is attempted 4 times (the initial call plus 3 retries)
and the original 500 is surfaced, as in
`test_create_server_retries_if_no_server_found`. -/
theorem create_server_consults_find_server_witness :
    create_server (fun _ => .failed 500) (fun _ => []) launchTemplate =
      (.error (.OriginalError 500), 4) :=
  (create_server_consults_find_server (fun _ => .failed 500) (fun _ => [])
      launchTemplate 500 (by with_unfolding_all decide)).2.2.2
    (fun _ => rfl) (fun _ => rfl)

/-- Claim C8 fails on the code: a 401 — a 4xx other than the success-class
404 — is not a terminal failure for the remove step.  With the default
budget of 12 and the response sequence of
`test_removelb_retries_logs_unexpected_errors` (whose fifth attempt gets a
401), the operation is retried past the 401 and succeeds on the following
200 instead of failing. -/
theorem remove_from_lb_not_terminal_on_401 :
    (unexpectedCodesResponses 4).code = 401 ∧
    remove_from_load_balancer unexpectedCodesResponses 12 = .ok () := by
  constructor
  · rfl
  · with_unfolding_all rfl

/-- Claim C8, amended: `remove_from_load_balancer` succeeds exactly when
some attempt within the retry budget gets a success-class response — a 2xx,
a 404, a 422 saying the load balancer is deleted, or a 422 saying
PENDING_DELETE — with every earlier attempt failing; every non-success
response (422 PENDING_UPDATE, 5xx, and unexpected statuses such as a 401,
which are logged but still counted against the budget) is retried, and once
the budget is exhausted the last failing status code is surfaced. -/
theorem remove_from_lb_success_and_retry (responses : Nat → LBResponse)
    (max_retries : Nat) :
    (remove_from_load_balancer responses max_retries = .ok () ↔
      ∃ k, k ≤ max_retries ∧ removeNodeSuccess (responses k) = true ∧
        ∀ j, j < k → removeNodeSuccess (responses j) = false) ∧
    ((∀ k, k ≤ max_retries → removeNodeSuccess (responses k) = false) →
      remove_from_load_balancer responses max_retries =
        .error (responses max_retries).code) := by
  constructor
  · have h := remove_from_lb_go_ok_iff responses max_retries 0
    simpa [remove_from_load_balancer] using h
  · intro hall
    have h := remove_from_lb_go_exhausted responses max_retries 0 (fun k hk => by
      simpa using hall k hk)
    simpa [remove_from_load_balancer] using h

/-- Concrete instantiation of `remove_from_lb_success_and_retry`, mirroring
`test_removelb_limits_retries`: a load balancer that always answers 422
PENDING_UPDATE exhausts a budget of 12 retries and the 422 is surfaced. -/
theorem remove_from_lb_success_and_retry_witness :
    remove_from_load_balancer
      (fun _ => { code := 422, message := .pendingUpdate }) 12 = .error 422 :=
  (remove_from_lb_success_and_retry
      (fun _ => { code := 422, message := .pendingUpdate }) 12).2
    (fun _ _ => rfl)

/-- Claim C9: for every group id and launch config, the desired group state
built at the start of a cycle carries a launch template whose server
metadata maps the key `rax:auto_scaling_group_id` to exactly that group id,
so every server created from it is marked as owned by the group. -/
theorem desired_group_state_carries_group_id (group_id : String)
    (launch_config : LaunchConfig) (desired : Nat) :
    assocLookup
      (get_desired_group_state group_id launch_config desired).launch_config.server.metadata
      "rax:auto_scaling_group_id" = some group_id := by
  simpa [get_desired_group_state, prepare_server_launch_config] using
    assocLookup_metaSet launch_config.args.server.metadata
      "rax:auto_scaling_group_id" group_id

/-- Claim C10: `tenant_is_enabled tenant_id get_config_value` is true iff the
`convergence-tenants` configuration value is present and lists the tenant;
in particular, when the key is absent it is false for every tenant. -/
theorem tenant_is_enabled_iff (tenant_id : String)
    (get_config_value : String → Option (List String)) :
    (tenant_is_enabled tenant_id get_config_value = true ↔
      ∃ enabled, get_config_value "convergence-tenants" = some enabled ∧
        tenant_id ∈ enabled) ∧
    (get_config_value "convergence-tenants" = none →
      tenant_is_enabled tenant_id get_config_value = false) := by
  cases h : get_config_value "convergence-tenants" with
  | none => simp [tenant_is_enabled, h]
  | some enabled => simp [tenant_is_enabled, h]

/-- Concrete instantiation of `tenant_is_enabled_iff`: with
`convergence-tenants = ["t1", "t2"]` tenant `t1` is enabled, and with an
empty configuration no tenant is enabled. -/
theorem tenant_is_enabled_iff_witness :
    tenant_is_enabled "t1"
      (fun k => if k = "convergence-tenants" then some ["t1", "t2"] else none) = true ∧
    tenant_is_enabled "t1" (fun _ => none) = false :=
  ⟨(tenant_is_enabled_iff "t1"
      (fun k => if k = "convergence-tenants" then some ["t1", "t2"] else none)).1.mpr
      ⟨["t1", "t2"], by decide, by decide⟩,
   (tenant_is_enabled_iff "t1" (fun _ => none)).2 rfl⟩

end Otter
